import Mathlib

/-
Verification of the LKL Python binding (src/lkl.py): a ctypes adapter that
loads the LKL shared library, binds its entry points, installs host
callbacks into the native lkl_host_ops record, runs lkl_init and
lkl_start_kernel, and tears down via lkl_sys_halt and lkl_cleanup.

The embedding models the native library as an oracle (symbol presence and
the integer each native function returns) and records the observable
actions of the binding layer as an explicit event trace: library load,
symbol resolution, writes into the host-operations record, and native
calls. LKL.__init__ and LKL.__del__ are translated line by line into
state-passing functions over this oracle.
-/

namespace LklBinding

/-- Names of the native symbols the binding resolves: the six functions
lkl_strerror, lkl_init, lkl_cleanup, lkl_start_kernel, lkl_is_running,
lkl_sys_halt, and the lkl_host_ops variable looked up via in_dll. -/
inductive SymName
  | strerror
  | init
  | cleanup
  | startKernel
  | isRunning
  | sysHalt
  | hostOpsVar
  deriving DecidableEq

/-- Slots of the native host-operations record (_CLklHostOperations,
src/lkl.py lines 32-39): the _reserved pointer, print_, and panic. -/
inductive Slot
  | printSlot
  | panicSlot
  | reservedSlot
  deriving DecidableEq

/-- A native function invocation made by the binding layer. -/
inductive NativeCall
  | callInit
  | callStartKernel (cmdline : List UInt8)
  | callIsRunning
  | callSysHalt
  | callCleanup
  | callStrerror (err : Int)
  deriving DecidableEq

/-- Observable actions of the binding layer, in program order. -/
inductive Event
  | load
  | bind (s : SymName)
  | writeSlot (s : Slot)
  | call (c : NativeCall)
  deriving DecidableEq

/-- Python exceptions the binding can raise: the TypeError raised at the
singleton check (the spec names it SingletonViolation), an OSError from
CDLL (LoadError), an AttributeError or ValueError from symbol lookup
(BindError), and LklBindingError from the errcheck routine. -/
inductive PyError
  | singletonViolation
  | loadError
  | bindError (s : SymName)
  | lklBindingError (msg : List UInt8)
  deriving DecidableEq

/-- Contents of one slot of the native host-operations record: whatever
pointer the native side put there, or a trampoline installed by the
binding wrapping the corresponding host closure. -/
inductive SlotVal
  | native (v : Int)
  | hostPrintTrampoline
  | hostPanicTrampoline
  deriving DecidableEq

/-- The native lkl_host_ops record (_CLklHostOperations): a fixed-layout
struct with a _reserved pointer, a print_ slot and a panic slot. -/
structure CLklHostOperations where
  reserved : SlotVal
  print_ : SlotVal
  panic : SlotVal
  deriving DecidableEq

/-- The LklHostOperations dataclass as far as control flow sees it: for
each optional closure, whether it was supplied (a supplied Python
callable is truthy, an absent one is None and falsy). -/
structure LklHostOperations where
  print_ : Bool
  panic : Bool
  deriving DecidableEq

/-- The native library modelled as an oracle: which symbols the loaded
image exports, whether CDLL succeeds on the path, the string-error
lookup, and the integer each native function returns when called once
during the construction-plus-teardown life of the single instance. -/
structure NativeLib where
  loadOk : Bool
  hasStrerror : Bool
  hasInit : Bool
  hasCleanup : Bool
  hasStartKernel : Bool
  hasIsRunning : Bool
  hasSysHalt : Bool
  hasHostOpsVar : Bool
  strerror : Int → List UInt8
  initRet : Int
  startKernelRet : Int
  isRunningRet : Int
  sysHaltRet : Int

/-- Whether the loaded image exports a given symbol. -/
def NativeLib.hasSym (lib : NativeLib) : SymName → Bool
  | .strerror => lib.hasStrerror
  | .init => lib.hasInit
  | .cleanup => lib.hasCleanup
  | .startKernel => lib.hasStartKernel
  | .isRunning => lib.hasIsRunning
  | .sysHalt => lib.hasSysHalt
  | .hostOpsVar => lib.hasHostOpsVar

/-- The symbols LKL.__init__ resolves, in source order (src/lkl.py lines
79, 83, 88, 92, 97, 101, 108). -/
def requiredSyms : List SymName :=
  [.strerror, .init, .cleanup, .startKernel, .isRunning, .sysHalt, .hostOpsVar]

/-- True when every required symbol is exported by the image. -/
def allSymbolsPresent (lib : NativeLib) : Bool :=
  requiredSyms.all lib.hasSym

/-- Resolution of a list of symbols in order: each attribute access on the
CDLL object performs a lookup; the first missing symbol raises and stops
the sequence. Returns the resolution events and the first missing symbol,
if any. -/
def bindSyms (lib : NativeLib) : List SymName → List Event × Option SymName
  | [] => ([], none)
  | s :: rest =>
    if lib.hasSym s then
      let r := bindSyms lib rest
      (Event.bind s :: r.1, r.2)
    else
      ([Event.bind s], some s)

/-- LKL._chk_lkl_cfunc_ret (src/lkl.py lines 126-128): the ctypes errcheck
attached to lkl_init, lkl_start_kernel and lkl_sys_halt. If ret is
negative it raises LklBindingError carrying the bytes returned by
lkl_strerror(ret); otherwise the Python function falls off its end and
returns None, which ctypes then uses as the checked call's result. -/
def chkLklCfuncRet (strerror : Int → List UInt8) (ret : Int) :
    Except (List UInt8) (Option Int) :=
  if ret < 0 then Except.error (strerror ret) else Except.ok none

/-- Follows the spec's words for the error translator, to be compared with
chkLklCfuncRet: negative codes fail with the string-error text, and a
non-negative value is returned unchanged to the caller as the payload. -/
def chkRetSpec (strerror : Int → List UInt8) (ret : Int) :
    Except (List UInt8) (Option Int) :=
  if ret < 0 then Except.error (strerror ret) else Except.ok (some ret)

/-- The ctypes conversion applied to a callback argument declared as
c_char_p: the incoming pointer is turned into a Python bytes object by
reading up to (and not including) the first zero byte. -/
def cCharPArgBytes (p : List UInt8) : List UInt8 :=
  p.takeWhile (fun b => b != 0)

/-- Bytes delivered to the host print closure by the trampoline
(src/lkl.py line 116): the lambda receives str_ already converted by
ctypes from c_char_p, then slices str_ up to len_. -/
def printTrampoline (p : List UInt8) (len : Nat) : List UInt8 :=
  (cCharPArgBytes p).take len

/-- Follows the spec's words for the print trampoline, to be compared with
printTrampoline: exactly the first len bytes at the pointer are delivered,
regardless of embedded zero bytes. -/
def printDeliveredSpec (p : List UInt8) (len : Nat) : List UInt8 :=
  p.take len

/-- Whether the print closure was supplied (host_ops truthy and
host_ops.print_ truthy). -/
def printSupplied : Option LklHostOperations → Bool
  | none => false
  | some h => h.print_

/-- Whether the panic closure was supplied. -/
def panicSupplied : Option LklHostOperations → Bool
  | none => false
  | some h => h.panic

/-- The callback installation step (src/lkl.py lines 113-119): for each
supplied closure, a trampoline is constructed and written into the
corresponding slot of the in_dll host-operations record. Returns the
write events in program order and the updated record. -/
def installCallbacks (hostOps : Option LklHostOperations)
    (r0 : CLklHostOperations) : List Event × CLklHostOperations :=
  match hostOps with
  | none => ([], r0)
  | some h =>
    let p :=
      if h.print_ then
        ([Event.writeSlot Slot.printSlot],
          { r0 with print_ := SlotVal.hostPrintTrampoline })
      else ([], r0)
    if h.panic then
      (p.1 ++ [Event.writeSlot Slot.panicSlot],
        { p.2 with panic := SlotVal.hostPanicTrampoline })
    else p

/-- The per-object state relevant to teardown: the _initialized_lkl
attribute, set to False as the first statement of __init__ (line 70) and
to True only after lkl_init returned successfully (line 123). -/
structure LKLObj where
  initialized_lkl : Bool
  deriving DecidableEq

/-- Result of a construction attempt: the event trace, the value of the
process-wide _g_lkl_instantiated flag afterwards, the (possibly partially
constructed) object, the exception raised if any, and the final contents
of the host-operations record. -/
structure ConstructResult where
  events : List Event
  flag : Bool
  obj : LKLObj
  error : Option PyError
  record : CLklHostOperations
  deriving DecidableEq

/-- LKL.__init__ (src/lkl.py lines 64-124), as a function of the native
oracle, the _g_lkl_instantiated flag on entry, the initial contents of
the native host-operations record, the encoded cmdline bytes, and the
optional host_ops argument. Steps in source order: set _initialized_lkl
to False; raise if the flag is set; CDLL the path; set the flag; resolve
the seven symbols; install supplied callbacks; call lkl_init through the
errcheck; mark _initialized_lkl; call lkl_start_kernel through the
errcheck. -/
def LKL_init (lib : NativeLib) (flag0 : Bool) (r0 : CLklHostOperations)
    (cmdlineBytes : List UInt8) (hostOps : Option LklHostOperations) :
    ConstructResult :=
  if flag0 then
    ⟨[], flag0, ⟨false⟩, some PyError.singletonViolation, r0⟩
  else if lib.loadOk = false then
    ⟨[Event.load], flag0, ⟨false⟩, some PyError.loadError, r0⟩
  else
    let b := bindSyms lib requiredSyms
    match b.2 with
    | some s =>
      ⟨Event.load :: b.1, true, ⟨false⟩, some (PyError.bindError s), r0⟩
    | none =>
      let w := installCallbacks hostOps r0
      let evs1 := Event.load :: b.1 ++ w.1 ++ [Event.call NativeCall.callInit]
      match chkLklCfuncRet lib.strerror lib.initRet with
      | Except.error msg =>
        ⟨evs1 ++ [Event.call (NativeCall.callStrerror lib.initRet)], true,
          ⟨false⟩, some (PyError.lklBindingError msg), w.2⟩
      | Except.ok _ =>
        let evs2 :=
          evs1 ++ [Event.call (NativeCall.callStartKernel cmdlineBytes)]
        match chkLklCfuncRet lib.strerror lib.startKernelRet with
        | Except.error msg =>
          ⟨evs2 ++ [Event.call (NativeCall.callStrerror lib.startKernelRet)],
            true, ⟨true⟩, some (PyError.lklBindingError msg), w.2⟩
        | Except.ok _ =>
          ⟨evs2, true, ⟨true⟩, none, w.2⟩

/-- Result of teardown: its event trace, the exception that escaped the
method body if any, and the _g_lkl_instantiated flag afterwards. -/
structure TeardownResult where
  events : List Event
  error : Option PyError
  flag : Bool
  deriving DecidableEq

/-- LKL.__del__ (src/lkl.py lines 130-137): return immediately unless
_initialized_lkl is set; call lkl_is_running; if it returned nonzero call
lkl_sys_halt through the errcheck, whose raise aborts the method body
before the lkl_cleanup line; finally call lkl_cleanup. The method body
contains no assignment to _g_lkl_instantiated, so the flag is returned
unchanged. -/
def LKL_del (lib : NativeLib) (flag : Bool) (obj : LKLObj) : TeardownResult :=
  if obj.initialized_lkl = false then
    ⟨[], none, flag⟩
  else if lib.isRunningRet != 0 then
    match chkLklCfuncRet lib.strerror lib.sysHaltRet with
    | Except.error msg =>
      ⟨[Event.call NativeCall.callIsRunning, Event.call NativeCall.callSysHalt,
        Event.call (NativeCall.callStrerror lib.sysHaltRet)],
        some (PyError.lklBindingError msg), flag⟩
    | Except.ok _ =>
      ⟨[Event.call NativeCall.callIsRunning, Event.call NativeCall.callSysHalt,
        Event.call NativeCall.callCleanup], none, flag⟩
  else
    ⟨[Event.call NativeCall.callIsRunning, Event.call NativeCall.callCleanup],
      none, flag⟩

/-- A native stub that exports every symbol, returns 0 from init, start
and halt, and 1 from is-running, matching the spec's stub scenario. -/
def stubLib : NativeLib where
  loadOk := true
  hasStrerror := true
  hasInit := true
  hasCleanup := true
  hasStartKernel := true
  hasIsRunning := true
  hasSysHalt := true
  hasHostOpsVar := true
  strerror := fun _ => []
  initRet := 0
  startKernelRet := 0
  isRunningRet := 1
  sysHaltRet := 0

/-- A stub whose lkl_init fails with -1. -/
def initFailLib : NativeLib :=
  { stubLib with initRet := -1 }

/-- A stub whose lkl_start_kernel fails with -1 and whose is-running then
reports 0 (the kernel never ran). -/
def startFailLib : NativeLib :=
  { stubLib with startKernelRet := -1, isRunningRet := 0 }

/-- A stub whose lkl_sys_halt fails with -1 while is-running reports 1. -/
def haltFailLib : NativeLib :=
  { stubLib with sysHaltRet := -1 }

/-- A stub whose lkl_sys_halt fails with -2 while is-running reports 1. -/
def haltFailLib2 : NativeLib :=
  { stubLib with sysHaltRet := -2 }

/-- A stub from whose image the lkl_sys_halt symbol is missing. -/
def noHaltLib : NativeLib :=
  { stubLib with hasSysHalt := false }

/-- A host-operations record with arbitrary concrete native contents. -/
def sampleRecord : CLklHostOperations :=
  ⟨SlotVal.native 10, SlotVal.native 11, SlotVal.native 12⟩

/-- The bytes of the print example: b plus boot, a zero byte, then A. -/
def bootMsg : List UInt8 := [98, 111, 111, 116, 0, 65]

/-- Binding a list of symbols that are all present yields one resolution
event per symbol, in order, and no failure. -/
theorem bindSyms_all_present (lib : NativeLib) (syms : List SymName)
    (h : ∀ s ∈ syms, lib.hasSym s = true) :
    bindSyms lib syms = (syms.map Event.bind, none) := by
  induction syms with
  | nil => rfl
  | cons s rest ih =>
    have hs : lib.hasSym s = true := h s (by simp)
    have hr := ih (fun x hx => h x (by simp [hx]))
    simp [bindSyms, hs, hr]

/-- Every event produced by symbol binding is a resolution event. -/
theorem bindSyms_events_are_binds (lib : NativeLib) (syms : List SymName) :
    ∀ e ∈ (bindSyms lib syms).1, ∃ s, e = Event.bind s := by
  induction syms with
  | nil => intro e he; simp [bindSyms] at he
  | cons s rest ih =>
    intro e he
    cases hs : lib.hasSym s with
    | true =>
      simp only [bindSyms, hs, if_true, List.mem_cons] at he
      rcases he with h | h
      · exact ⟨s, h⟩
      · exact ih e h
    | false =>
      simp only [bindSyms, hs, Bool.false_eq_true, if_false,
        List.mem_singleton] at he
      exact ⟨s, he⟩

/-- Symbol binding reports no missing symbol exactly when every symbol of
the list is present. -/
theorem bindSyms_none_iff (lib : NativeLib) (syms : List SymName) :
    (bindSyms lib syms).2 = none ↔ ∀ s ∈ syms, lib.hasSym s = true := by
  induction syms with
  | nil => simp [bindSyms]
  | cons s rest ih =>
    cases hs : lib.hasSym s with
    | true => simp [bindSyms, hs, ih]
    | false =>
      simp only [bindSyms, Bool.false_eq_true, if_false]
      constructor
      · intro h; exact absurd h (by simp [hs])
      · intro h
        have := h s (by simp)
        rw [hs] at this
        exact absurd this (by simp)

/-- The symbol that binding reports as missing is indeed absent. -/
theorem bindSyms_some_not_present (lib : NativeLib) (syms : List SymName)
    (s : SymName) (h : (bindSyms lib syms).2 = some s) :
    lib.hasSym s = false := by
  induction syms with
  | nil => simp [bindSyms] at h
  | cons t rest ih =>
    cases ht : lib.hasSym t with
    | true =>
      simp only [bindSyms, ht, if_true] at h
      exact ih h
    | false =>
      simp only [bindSyms, ht, Bool.false_eq_true, if_false] at h
      cases h
      exact ht

/-- The write events of callback installation: one per supplied closure,
print slot first. -/
theorem installCallbacks_events (hops : Option LklHostOperations)
    (r0 : CLklHostOperations) :
    (installCallbacks hops r0).1 =
      (if printSupplied hops then [Event.writeSlot Slot.printSlot] else []) ++
      (if panicSupplied hops then [Event.writeSlot Slot.panicSlot] else []) := by
  cases hops with
  | none => rfl
  | some h =>
    cases hp : h.print_ <;> cases hq : h.panic <;>
      simp [installCallbacks, printSupplied, panicSupplied, hp, hq]

/-- Callback installation never touches the reserved slot. -/
theorem installCallbacks_reserved (hops : Option LklHostOperations)
    (r0 : CLklHostOperations) :
    (installCallbacks hops r0).2.reserved = r0.reserved := by
  cases hops with
  | none => rfl
  | some h =>
    cases hp : h.print_ <;> cases hq : h.panic <;>
      simp [installCallbacks, hp, hq]

/-- When no print closure is supplied the print slot keeps its native
contents. -/
theorem installCallbacks_print_untouched (hops : Option LklHostOperations)
    (r0 : CLklHostOperations) (h : printSupplied hops = false) :
    (installCallbacks hops r0).2.print_ = r0.print_ := by
  cases hops with
  | none => rfl
  | some ho =>
    have hp : ho.print_ = false := h
    cases hq : ho.panic <;> simp [installCallbacks, hp, hq]

/-- When no panic closure is supplied the panic slot keeps its native
contents. -/
theorem installCallbacks_panic_untouched (hops : Option LklHostOperations)
    (r0 : CLklHostOperations) (h : panicSupplied hops = false) :
    (installCallbacks hops r0).2.panic = r0.panic := by
  cases hops with
  | none => rfl
  | some ho =>
    have hq : ho.panic = false := h
    cases hp : ho.print_ <;> simp [installCallbacks, hp, hq]

/-- Every event of callback installation is a slot write, and only of the
print or panic slot when the corresponding closure was supplied. -/
theorem installCallbacks_mem (hops : Option LklHostOperations)
    (r0 : CLklHostOperations) (e : Event)
    (he : e ∈ (installCallbacks hops r0).1) :
    (e = Event.writeSlot Slot.printSlot ∧ printSupplied hops = true) ∨
    (e = Event.writeSlot Slot.panicSlot ∧ panicSupplied hops = true) := by
  rw [installCallbacks_events] at he
  rcases List.mem_append.mp he with h | h
  · left
    cases hp : printSupplied hops <;> simp [hp] at h ⊢
    exact h
  · right
    cases hq : panicSupplied hops <;> simp [hq] at h ⊢
    exact h

/-- Unfolding of allSymbolsPresent into a statement about each symbol. -/
theorem allSymbolsPresent_iff (lib : NativeLib) :
    allSymbolsPresent lib = true ↔ ∀ s ∈ requiredSyms, lib.hasSym s = true := by
  simp [allSymbolsPresent, List.all_eq_true]

/-- Shape of a construction attempt that passes the singleton check, the
library load and all symbol resolutions: the trace is the load event, the
seven resolutions, the slot writes, then the checked lkl_init call, and
from there the three possible outcomes depending on the signs of the
native init and start-kernel return values. -/
theorem LKL_init_bound_shape (lib : NativeLib) (r0 : CLklHostOperations)
    (cmd : List UInt8) (hops : Option LklHostOperations)
    (hload : lib.loadOk = true) (hsym : allSymbolsPresent lib = true) :
    LKL_init lib false r0 cmd hops =
      if lib.initRet < 0 then
        ⟨Event.load :: requiredSyms.map Event.bind ++
            (installCallbacks hops r0).1 ++
            [Event.call NativeCall.callInit,
             Event.call (NativeCall.callStrerror lib.initRet)],
          true, ⟨false⟩,
          some (PyError.lklBindingError (lib.strerror lib.initRet)),
          (installCallbacks hops r0).2⟩
      else if lib.startKernelRet < 0 then
        ⟨Event.load :: requiredSyms.map Event.bind ++
            (installCallbacks hops r0).1 ++
            [Event.call NativeCall.callInit,
             Event.call (NativeCall.callStartKernel cmd),
             Event.call (NativeCall.callStrerror lib.startKernelRet)],
          true, ⟨true⟩,
          some (PyError.lklBindingError (lib.strerror lib.startKernelRet)),
          (installCallbacks hops r0).2⟩
      else
        ⟨Event.load :: requiredSyms.map Event.bind ++
            (installCallbacks hops r0).1 ++
            [Event.call NativeCall.callInit,
             Event.call (NativeCall.callStartKernel cmd)],
          true, ⟨true⟩, none, (installCallbacks hops r0).2⟩ := by
  have hb : bindSyms lib requiredSyms = (requiredSyms.map Event.bind, none) :=
    bindSyms_all_present lib requiredSyms ((allSymbolsPresent_iff lib).mp hsym)
  by_cases hi : lib.initRet < 0
  · simp [LKL_init, hload, hb, chkLklCfuncRet, hi]
  · by_cases hk : lib.startKernelRet < 0
    · simp [LKL_init, hload, hb, chkLklCfuncRet, hi, hk]
    · simp [LKL_init, hload, hb, chkLklCfuncRet, hi, hk]

/-- Shape of a construction attempt stopped by a missing symbol: the flag
is already set, the trace holds the load event and resolution attempts
only, and the error names a symbol that is indeed absent. -/
theorem LKL_init_missing_shape (lib : NativeLib) (r0 : CLklHostOperations)
    (cmd : List UInt8) (hops : Option LklHostOperations)
    (hload : lib.loadOk = true) (hsym : allSymbolsPresent lib = false) :
    ∃ s, lib.hasSym s = false ∧
      LKL_init lib false r0 cmd hops =
        ⟨Event.load :: (bindSyms lib requiredSyms).1, true, ⟨false⟩,
          some (PyError.bindError s), r0⟩ := by
  have hne : (bindSyms lib requiredSyms).2 ≠ none := by
    intro h
    have := (bindSyms_none_iff lib requiredSyms).mp h
    rw [(allSymbolsPresent_iff lib).mpr this] at hsym
    exact absurd hsym (by simp)
  rcases Option.ne_none_iff_exists'.mp hne with ⟨s, hs⟩
  refine ⟨s, bindSyms_some_not_present lib requiredSyms s hs, ?_⟩
  simp [LKL_init, hload, hs]

/-- A construction attempt that survives the load step leaves the global
flag set, whatever happens later. -/
theorem LKL_init_flag_true (lib : NativeLib) (r0 : CLklHostOperations)
    (cmd : List UInt8) (hops : Option LklHostOperations)
    (hload : lib.loadOk = true) :
    (LKL_init lib false r0 cmd hops).flag = true := by
  by_cases hsym : allSymbolsPresent lib = true
  · rw [LKL_init_bound_shape lib r0 cmd hops hload hsym]
    by_cases hi : lib.initRet < 0
    · simp [hi]
    · by_cases hk : lib.startKernelRet < 0 <;> simp [hi, hk]
  · rcases LKL_init_missing_shape lib r0 cmd hops hload
        (by simpa using hsym) with ⟨s, _, heq⟩
    rw [heq]

/-- A successful construction implies the library load succeeded. -/
theorem LKL_init_error_none_load (lib : NativeLib) (r0 : CLklHostOperations)
    (cmd : List UInt8) (hops : Option LklHostOperations)
    (h : (LKL_init lib false r0 cmd hops).error = none) :
    lib.loadOk = true := by
  by_cases hl : lib.loadOk = true
  · exact hl
  · exfalso
    have hl' : lib.loadOk = false := by simpa using hl
    simp [LKL_init, hl'] at h

/-- Callback installation makes no native call. -/
theorem installCallbacks_call_not_mem (hops : Option LklHostOperations)
    (r0 : CLklHostOperations) (c : NativeCall) :
    Event.call c ∉ (installCallbacks hops r0).1 := by
  intro h
  rcases installCallbacks_mem hops r0 _ h with ⟨h1, _⟩ | ⟨h1, _⟩ <;> simp at h1

/-- C1: if the native init call fails (negative code), neither halt nor
cleanup is ever invoked on that instance, during construction or on
teardown; if init succeeds but start-kernel fails (the kernel never ran,
so is-running reports 0), teardown invokes cleanup but not halt. -/
theorem claim_C1 (lib : NativeLib) (r0 : CLklHostOperations)
    (cmd : List UInt8) (hops : Option LklHostOperations)
    (hload : lib.loadOk = true) (hsym : allSymbolsPresent lib = true) :
    (lib.initRet < 0 →
      Event.call NativeCall.callSysHalt ∉
        (LKL_init lib false r0 cmd hops).events ∧
      Event.call NativeCall.callCleanup ∉
        (LKL_init lib false r0 cmd hops).events ∧
      (LKL_del lib true (LKL_init lib false r0 cmd hops).obj).events = []) ∧
    (0 ≤ lib.initRet → lib.startKernelRet < 0 → lib.isRunningRet = 0 →
      Event.call NativeCall.callCleanup ∈
        (LKL_del lib true (LKL_init lib false r0 cmd hops).obj).events ∧
      Event.call NativeCall.callSysHalt ∉
        (LKL_del lib true (LKL_init lib false r0 cmd hops).obj).events ∧
      Event.call NativeCall.callSysHalt ∉
        (LKL_init lib false r0 cmd hops).events ∧
      Event.call NativeCall.callCleanup ∉
        (LKL_init lib false r0 cmd hops).events) := by
  rw [LKL_init_bound_shape lib r0 cmd hops hload hsym]
  constructor
  · intro hi
    rw [if_pos hi]
    refine ⟨?_, ?_, rfl⟩
    · intro hmem
      simp [requiredSyms] at hmem
      exact installCallbacks_call_not_mem hops r0 _ hmem
    · intro hmem
      simp [requiredSyms] at hmem
      exact installCallbacks_call_not_mem hops r0 _ hmem
  · intro hi hk hr
    have hi' : ¬ lib.initRet < 0 := not_lt.mpr hi
    rw [if_neg hi', if_pos hk]
    have hdel : LKL_del lib true (⟨true⟩ : LKLObj) =
        ⟨[Event.call NativeCall.callIsRunning,
          Event.call NativeCall.callCleanup], none, true⟩ := by
      simp [LKL_del, hr]
    refine ⟨?_, ?_, ?_, ?_⟩
    · rw [hdel]; simp
    · rw [hdel]; simp
    · intro hmem
      simp [requiredSyms] at hmem
      exact installCallbacks_call_not_mem hops r0 _ hmem
    · intro hmem
      simp [requiredSyms] at hmem
      exact installCallbacks_call_not_mem hops r0 _ hmem

/-- Witness for C1 at two concrete stubs: one whose init returns -1, one
whose init succeeds and whose start-kernel returns -1. -/
theorem claim_C1_witness :
    (LKL_del initFailLib true
      (LKL_init initFailLib false sampleRecord [] none).obj).events = [] ∧
    Event.call NativeCall.callCleanup ∈
      (LKL_del startFailLib true
        (LKL_init startFailLib false sampleRecord [] none).obj).events :=
  ⟨((claim_C1 initFailLib sampleRecord [] none rfl (by decide)).1
      (by decide)).2.2,
   ((claim_C1 startFailLib sampleRecord [] none rfl (by decide)).2
      (by decide) (by decide) rfl).1⟩

/-- C2 counterexample: the errcheck routine returns None on a
non-negative code, so the native payload 5 is not forwarded unchanged
(the spec-following translator would return 5). -/
theorem claim_C2_counterexample :
    chkLklCfuncRet (fun _ => []) 5 = Except.ok none ∧
    chkRetSpec (fun _ => []) 5 = Except.ok (some 5) ∧
    (Except.ok none : Except (List UInt8) (Option Int)) ≠
      Except.ok (some 5) := by
  refine ⟨rfl, rfl, ?_⟩
  intro h
  simp at h

/-- C2 amended: on a negative return code the errcheck raises
LklBindingError carrying the native string-error bytes for that code; on
a non-negative code the call is treated as success, but the checked
call's result is None rather than the native value. -/
theorem claim_C2_amended (f : Int → List UInt8) (ret : Int) :
    (ret < 0 → chkLklCfuncRet f ret = Except.error (f ret)) ∧
    (0 ≤ ret → chkLklCfuncRet f ret = Except.ok none) := by
  constructor
  · intro h; simp [chkLklCfuncRet, h]
  · intro h; simp [chkLklCfuncRet, not_lt.mpr h]

/-- Witness for C2 at codes -3 and 7. -/
theorem claim_C2_amended_witness :
    chkLklCfuncRet (fun _ => [22]) (-3) = Except.error [22] ∧
    chkLklCfuncRet (fun _ => [22]) 7 = Except.ok none :=
  ⟨(claim_C2_amended (fun _ => [22]) (-3)).1 (by decide),
   (claim_C2_amended (fun _ => [22]) 7).2 (by decide)⟩

/-- C3: at the input P holding the bytes of boot, a zero byte, then A,
with length 6, the trampoline delivers only the four bytes before the
embedded zero (ctypes converts a c_char_p callback argument by reading up
to the first zero byte, before the slice by length), not the six bytes
the claim requires. -/
theorem claim_C3_code_divergence :
    printTrampoline bootMsg 6 = [98, 111, 111, 116] ∧
    printDeliveredSpec bootMsg 6 = [98, 111, 111, 116, 0, 65] ∧
    printTrampoline bootMsg 6 ≠ printDeliveredSpec bootMsg 6 := by decide

/-- C4: while a live instance exists (a construction attempt completed
with no error, so the flag is set), a second construction fails with the
singleton violation and produces no events at all: in particular the
native loader is never reached. -/
theorem claim_C4 (lib1 lib2 : NativeLib) (r0 r1 : CLklHostOperations)
    (cmd1 cmd2 : List UInt8) (h1 h2 : Option LklHostOperations)
    (hlive : (LKL_init lib1 false r0 cmd1 h1).error = none) :
    (LKL_init lib1 false r0 cmd1 h1).flag = true ∧
    (LKL_init lib2 (LKL_init lib1 false r0 cmd1 h1).flag r1 cmd2 h2).error =
      some PyError.singletonViolation ∧
    (LKL_init lib2 (LKL_init lib1 false r0 cmd1 h1).flag r1 cmd2 h2).events =
      [] := by
  have hload := LKL_init_error_none_load lib1 r0 cmd1 h1 hlive
  have hflag := LKL_init_flag_true lib1 r0 cmd1 h1 hload
  refine ⟨hflag, ?_, ?_⟩ <;> rw [hflag] <;> rfl

/-- Witness for C4: a second construction against the all-success stub
fails with the singleton violation and an empty trace. -/
theorem claim_C4_witness :
    (LKL_init stubLib (LKL_init stubLib false sampleRecord [] none).flag
      sampleRecord [] none).error = some PyError.singletonViolation ∧
    (LKL_init stubLib (LKL_init stubLib false sampleRecord [] none).flag
      sampleRecord [] none).events = [] :=
  ⟨(claim_C4 stubLib stubLib sampleRecord sampleRecord [] [] none none
      (by decide)).2.1,
   (claim_C4 stubLib stubLib sampleRecord sampleRecord [] [] none none
      (by decide)).2.2⟩

/-- C5 counterexample: on the stub whose is-running reports 1 and whose
halt returns -1, teardown of a fully initialized instance calls halt, the
errcheck raises, and cleanup is never called: the trace ends at the
string-error lookup with no cleanup call. -/
theorem claim_C5_counterexample :
    (LKL_init haltFailLib false sampleRecord [] none).obj.initialized_lkl =
      true ∧
    (LKL_del haltFailLib true
        (LKL_init haltFailLib false sampleRecord [] none).obj).events =
      [Event.call NativeCall.callIsRunning, Event.call NativeCall.callSysHalt,
       Event.call (NativeCall.callStrerror (-1))] ∧
    Event.call NativeCall.callCleanup ∉
      (LKL_del haltFailLib true
        (LKL_init haltFailLib false sampleRecord [] none).obj).events := by
  decide

/-- C5 amended: on teardown of an instance whose init succeeded, if
is-running reports true then halt is called (error-checked) and, when the
halt call succeeds, cleanup is called right after it, in that order; when
the halt call fails, the raised error aborts teardown and cleanup is not
called; when is-running reports false, cleanup is called without halt. -/
theorem claim_C5_amended (lib : NativeLib) (flag : Bool) (obj : LKLObj)
    (hinit : obj.initialized_lkl = true) :
    (lib.isRunningRet ≠ 0 → 0 ≤ lib.sysHaltRet →
      (LKL_del lib flag obj).events =
        [Event.call NativeCall.callIsRunning,
         Event.call NativeCall.callSysHalt,
         Event.call NativeCall.callCleanup] ∧
      (LKL_del lib flag obj).error = none) ∧
    (lib.isRunningRet ≠ 0 → lib.sysHaltRet < 0 →
      (LKL_del lib flag obj).events =
        [Event.call NativeCall.callIsRunning,
         Event.call NativeCall.callSysHalt,
         Event.call (NativeCall.callStrerror lib.sysHaltRet)] ∧
      (LKL_del lib flag obj).error =
        some (PyError.lklBindingError (lib.strerror lib.sysHaltRet)) ∧
      Event.call NativeCall.callCleanup ∉ (LKL_del lib flag obj).events) ∧
    (lib.isRunningRet = 0 →
      (LKL_del lib flag obj).events =
        [Event.call NativeCall.callIsRunning,
         Event.call NativeCall.callCleanup]) := by
  refine ⟨?_, ?_, ?_⟩
  · intro hr hh
    simp [LKL_del, hinit, hr, chkLklCfuncRet, not_lt.mpr hh]
  · intro hr hh
    simp [LKL_del, hinit, hr, chkLklCfuncRet, hh]
  · intro hr
    simp [LKL_del, hinit, hr]

/-- Witness for C5 amended at the all-success stub. -/
theorem claim_C5_amended_witness :
    (LKL_del stubLib true ⟨true⟩).events =
      [Event.call NativeCall.callIsRunning, Event.call NativeCall.callSysHalt,
       Event.call NativeCall.callCleanup] :=
  ((claim_C5_amended stubLib true ⟨true⟩ rfl).1 (by decide) (by decide)).1

/-- C6: in a construction with supplied callbacks, every slot write
precedes the native init call: the trace splits around the init call,
each supplied closure's write lies in the part before it, and no slot
write occurs after it. -/
theorem claim_C6 (lib : NativeLib) (r0 : CLklHostOperations)
    (cmd : List UInt8) (h : LklHostOperations)
    (hload : lib.loadOk = true) (hsym : allSymbolsPresent lib = true) :
    ∃ pre post,
      (LKL_init lib false r0 cmd (some h)).events =
        pre ++ Event.call NativeCall.callInit :: post ∧
      (h.print_ = true → Event.writeSlot Slot.printSlot ∈ pre) ∧
      (h.panic = true → Event.writeSlot Slot.panicSlot ∈ pre) ∧
      ∀ s, Event.writeSlot s ∉ post := by
  rw [LKL_init_bound_shape lib r0 cmd (some h) hload hsym]
  by_cases hi : lib.initRet < 0
  · rw [if_pos hi]
    refine ⟨Event.load :: requiredSyms.map Event.bind ++
        (installCallbacks (some h) r0).1,
      [Event.call (NativeCall.callStrerror lib.initRet)], by simp, ?_, ?_,
      by intro s; simp⟩
    · intro hp
      simp [installCallbacks_events, printSupplied, hp]
    · intro hq
      simp [installCallbacks_events, panicSupplied, hq]
  · by_cases hk : lib.startKernelRet < 0
    · rw [if_neg hi, if_pos hk]
      refine ⟨Event.load :: requiredSyms.map Event.bind ++
          (installCallbacks (some h) r0).1,
        [Event.call (NativeCall.callStartKernel cmd),
         Event.call (NativeCall.callStrerror lib.startKernelRet)],
        by simp, ?_, ?_, by intro s; simp⟩
      · intro hp
        simp [installCallbacks_events, printSupplied, hp]
      · intro hq
        simp [installCallbacks_events, panicSupplied, hq]
    · rw [if_neg hi, if_neg hk]
      refine ⟨Event.load :: requiredSyms.map Event.bind ++
          (installCallbacks (some h) r0).1,
        [Event.call (NativeCall.callStartKernel cmd)],
        by simp, ?_, ?_, by intro s; simp⟩
      · intro hp
        simp [installCallbacks_events, printSupplied, hp]
      · intro hq
        simp [installCallbacks_events, panicSupplied, hq]

/-- Witness for C6 at the all-success stub with both closures supplied. -/
theorem claim_C6_witness :
    ∃ pre post,
      (LKL_init stubLib false sampleRecord [] (some ⟨true, true⟩)).events =
        pre ++ Event.call NativeCall.callInit :: post ∧
      ((⟨true, true⟩ : LklHostOperations).print_ = true →
        Event.writeSlot Slot.printSlot ∈ pre) ∧
      ((⟨true, true⟩ : LklHostOperations).panic = true →
        Event.writeSlot Slot.panicSlot ∈ pre) ∧
      ∀ s, Event.writeSlot s ∉ post :=
  claim_C6 stubLib sampleRecord [] ⟨true, true⟩ rfl (by decide)

/-- C7: when a required symbol is missing, construction fails with a
binding error naming an absent symbol and the trace holds no native call
at all; when all symbols are present, the trace starts with the load and
the seven resolutions, in order, before everything else, and that prefix
holds no native call. -/
theorem claim_C7 (lib : NativeLib) (r0 : CLklHostOperations)
    (cmd : List UInt8) (hops : Option LklHostOperations)
    (hload : lib.loadOk = true) :
    (allSymbolsPresent lib = false →
      (∃ s, lib.hasSym s = false ∧
        (LKL_init lib false r0 cmd hops).error =
          some (PyError.bindError s)) ∧
      ∀ c, Event.call c ∉ (LKL_init lib false r0 cmd hops).events) ∧
    (allSymbolsPresent lib = true →
      (∃ post, (LKL_init lib false r0 cmd hops).events =
        Event.load :: requiredSyms.map Event.bind ++ post) ∧
      ∀ c, Event.call c ∉ Event.load :: requiredSyms.map Event.bind) := by
  constructor
  · intro hsym
    rcases LKL_init_missing_shape lib r0 cmd hops hload hsym with ⟨s, habs, heq⟩
    rw [heq]
    refine ⟨⟨s, habs, rfl⟩, ?_⟩
    intro c hc
    rcases List.mem_cons.mp hc with h | h
    · simp at h
    · rcases bindSyms_events_are_binds lib requiredSyms _ h with ⟨t, ht⟩
      simp at ht
  · intro hsym
    rw [LKL_init_bound_shape lib r0 cmd hops hload hsym]
    refine ⟨?_, ?_⟩
    · by_cases hi : lib.initRet < 0
      · rw [if_pos hi]
        exact ⟨(installCallbacks hops r0).1 ++
          [Event.call NativeCall.callInit,
           Event.call (NativeCall.callStrerror lib.initRet)], by simp⟩
      · by_cases hk : lib.startKernelRet < 0
        · rw [if_neg hi, if_pos hk]
          exact ⟨(installCallbacks hops r0).1 ++
            [Event.call NativeCall.callInit,
             Event.call (NativeCall.callStartKernel cmd),
             Event.call (NativeCall.callStrerror lib.startKernelRet)],
            by simp⟩
        · rw [if_neg hi, if_neg hk]
          exact ⟨(installCallbacks hops r0).1 ++
            [Event.call NativeCall.callInit,
             Event.call (NativeCall.callStartKernel cmd)], by simp⟩
    · intro c
      simp [requiredSyms]

/-- Witness for C7 at a stub missing the halt symbol and at the complete
stub. -/
theorem claim_C7_witness :
    ((∃ s, noHaltLib.hasSym s = false ∧
        (LKL_init noHaltLib false sampleRecord [] none).error =
          some (PyError.bindError s)) ∧
      ∀ c, Event.call c ∉
        (LKL_init noHaltLib false sampleRecord [] none).events) ∧
    ∃ post, (LKL_init stubLib false sampleRecord [] none).events =
      Event.load :: requiredSyms.map Event.bind ++ post :=
  ⟨(claim_C7 noHaltLib sampleRecord [] none rfl).1 (by decide),
   ((claim_C7 stubLib sampleRecord [] none rfl).2 (by decide)).1⟩

/-- The record a construction attempt leaves behind is either the
untouched input record or exactly the record produced by the callback
installation step. -/
theorem LKL_init_record_cases (lib : NativeLib) (flag0 : Bool)
    (r0 : CLklHostOperations) (cmd : List UInt8)
    (hops : Option LklHostOperations) :
    (LKL_init lib flag0 r0 cmd hops).record = r0 ∨
    (LKL_init lib flag0 r0 cmd hops).record = (installCallbacks hops r0).2 := by
  cases flag0 with
  | true => left; rfl
  | false =>
    cases hl : lib.loadOk with
    | false => left; simp [LKL_init, hl]
    | true =>
      by_cases hsym : allSymbolsPresent lib = true
      · rw [LKL_init_bound_shape lib r0 cmd hops hl hsym]
        by_cases hi : lib.initRet < 0
        · right; rw [if_pos hi]
        · by_cases hk : lib.startKernelRet < 0
          · right; rw [if_neg hi, if_pos hk]
          · right; rw [if_neg hi, if_neg hk]
      · rcases LKL_init_missing_shape lib r0 cmd hops hl
            (by simpa using hsym) with ⟨t, _, heq⟩
        left; rw [heq]

/-- Every slot write in a construction trace comes from the callback
installation step. -/
theorem LKL_init_writeSlot_sub (lib : NativeLib) (flag0 : Bool)
    (r0 : CLklHostOperations) (cmd : List UInt8)
    (hops : Option LklHostOperations) (s : Slot)
    (h : Event.writeSlot s ∈ (LKL_init lib flag0 r0 cmd hops).events) :
    Event.writeSlot s ∈ (installCallbacks hops r0).1 := by
  cases flag0 with
  | true => simp [LKL_init] at h
  | false =>
    cases hl : lib.loadOk with
    | false => simp [LKL_init, hl] at h
    | true =>
      by_cases hsym : allSymbolsPresent lib = true
      · rw [LKL_init_bound_shape lib r0 cmd hops hl hsym] at h
        by_cases hi : lib.initRet < 0
        · rw [if_pos hi] at h
          simp [requiredSyms] at h
          exact h
        · by_cases hk : lib.startKernelRet < 0
          · rw [if_neg hi, if_pos hk] at h
            simp [requiredSyms] at h
            exact h
          · rw [if_neg hi, if_neg hk] at h
            simp [requiredSyms] at h
            exact h
      · rcases LKL_init_missing_shape lib r0 cmd hops hl
            (by simpa using hsym) with ⟨t, _, heq⟩
        rw [heq] at h
        simp at h
        rcases bindSyms_events_are_binds lib requiredSyms _ h with ⟨u, hu⟩
        simp at hu

/-- C8: under every input, the reserved slot of the host-operations
record is never written and keeps its contents; a callback slot is
written only when the corresponding closure is supplied, and an absent
closure leaves its slot untouched. -/
theorem claim_C8 (lib : NativeLib) (flag0 : Bool) (r0 : CLklHostOperations)
    (cmd : List UInt8) (hops : Option LklHostOperations) :
    (LKL_init lib flag0 r0 cmd hops).record.reserved = r0.reserved ∧
    Event.writeSlot Slot.reservedSlot ∉
      (LKL_init lib flag0 r0 cmd hops).events ∧
    (printSupplied hops = false →
      (LKL_init lib flag0 r0 cmd hops).record.print_ = r0.print_ ∧
      Event.writeSlot Slot.printSlot ∉
        (LKL_init lib flag0 r0 cmd hops).events) ∧
    (panicSupplied hops = false →
      (LKL_init lib flag0 r0 cmd hops).record.panic = r0.panic ∧
      Event.writeSlot Slot.panicSlot ∉
        (LKL_init lib flag0 r0 cmd hops).events) := by
  have hrec := LKL_init_record_cases lib flag0 r0 cmd hops
  refine ⟨?_, ?_, ?_, ?_⟩
  · rcases hrec with h | h
    · rw [h]
    · rw [h]; exact installCallbacks_reserved hops r0
  · intro hmem
    have hsub := LKL_init_writeSlot_sub lib flag0 r0 cmd hops _ hmem
    rcases installCallbacks_mem hops r0 _ hsub with ⟨h1, _⟩ | ⟨h1, _⟩ <;>
      simp at h1
  · intro hp
    refine ⟨?_, ?_⟩
    · rcases hrec with h | h
      · rw [h]
      · rw [h]; exact installCallbacks_print_untouched hops r0 hp
    · intro hmem
      have hsub := LKL_init_writeSlot_sub lib flag0 r0 cmd hops _ hmem
      rcases installCallbacks_mem hops r0 _ hsub with ⟨h1, h2⟩ | ⟨h1, _⟩
      · rw [hp] at h2
        exact absurd h2 (by simp)
      · simp at h1
  · intro hq
    refine ⟨?_, ?_⟩
    · rcases hrec with h | h
      · rw [h]
      · rw [h]; exact installCallbacks_panic_untouched hops r0 hq
    · intro hmem
      have hsub := LKL_init_writeSlot_sub lib flag0 r0 cmd hops _ hmem
      rcases installCallbacks_mem hops r0 _ hsub with ⟨h1, _⟩ | ⟨h1, h2⟩
      · simp at h1
      · rw [hq] at h2
        exact absurd h2 (by simp)

/-- Witness for C8: with no callbacks supplied, every slot of the record
keeps its contents. -/
theorem claim_C8_witness :
    (LKL_init stubLib false sampleRecord [] none).record.reserved =
      sampleRecord.reserved ∧
    (LKL_init stubLib false sampleRecord [] none).record.print_ =
      sampleRecord.print_ ∧
    (LKL_init stubLib false sampleRecord [] none).record.panic =
      sampleRecord.panic :=
  ⟨(claim_C8 stubLib false sampleRecord [] none).1,
   ((claim_C8 stubLib false sampleRecord [] none).2.2.1 rfl).1,
   ((claim_C8 stubLib false sampleRecord [] none).2.2.2 rfl).1⟩

/-- Teardown leaves the process-wide flag unchanged: the method body of
LKL.__del__ contains no assignment to the global. -/
theorem LKL_del_flag (lib : NativeLib) (f : Bool) (obj : LKLObj) :
    (LKL_del lib f obj).flag = f := by
  cases hin : obj.initialized_lkl with
  | false => simp [LKL_del, hin]
  | true =>
    by_cases hr : lib.isRunningRet = 0
    · simp [LKL_del, hin, hr]
    · by_cases hh : lib.sysHaltRet < 0
      · simp [LKL_del, hin, hr, chkLklCfuncRet, hh]
      · simp [LKL_del, hin, hr, chkLklCfuncRet, hh]

/-- C9 counterexample: on a stub whose init and start succeed, whose
is-running reports 1 and whose halt returns -2, the instance is fully
constructed, yet a single teardown invocation does not run the full
halt-plus-cleanup path: the failing checked halt call aborts the method
before cleanup. -/
theorem claim_C9_counterexample :
    (LKL_init haltFailLib2 false sampleRecord [] none).error = none ∧
    (LKL_init haltFailLib2 false sampleRecord [] none).obj.initialized_lkl =
      true ∧
    Event.call NativeCall.callSysHalt ∈
      (LKL_del haltFailLib2 true
        (LKL_init haltFailLib2 false sampleRecord [] none).obj).events ∧
    Event.call NativeCall.callCleanup ∉
      (LKL_del haltFailLib2 true
        (LKL_init haltFailLib2 false sampleRecord [] none).obj).events := by
  decide

/-- C9 amended: teardown of an instance whose init never succeeded (the
singleton check, the load, a symbol resolution or the init call failed)
is a no-op making no native calls; teardown of an initialized instance,
invoked once, makes the halt call at most once and the cleanup call
exactly once, except that a failing halt call aborts the method before
cleanup, leaving no cleanup call. -/
theorem claim_C9_amended (lib : NativeLib) (flag0 : Bool)
    (r0 : CLklHostOperations) (cmd : List UInt8)
    (hops : Option LklHostOperations) (flag1 : Bool) :
    ((flag0 = true ∨ lib.loadOk = false ∨ allSymbolsPresent lib = false ∨
        lib.initRet < 0) →
      (LKL_init lib flag0 r0 cmd hops).obj.initialized_lkl = false) ∧
    (∀ obj : LKLObj, obj.initialized_lkl = false →
      LKL_del lib flag1 obj = ⟨[], none, flag1⟩) ∧
    (∀ obj : LKLObj, obj.initialized_lkl = true →
      ((lib.isRunningRet = 0 ∨ 0 ≤ lib.sysHaltRet) →
        ((LKL_del lib flag1 obj).events.count
          (Event.call NativeCall.callCleanup)) = 1) ∧
      (lib.isRunningRet ≠ 0 → lib.sysHaltRet < 0 →
        Event.call NativeCall.callCleanup ∉
          (LKL_del lib flag1 obj).events) ∧
      ((LKL_del lib flag1 obj).events.count
        (Event.call NativeCall.callSysHalt)) ≤ 1) := by
  refine ⟨?_, ?_, ?_⟩
  · rintro (hf | hl | hs | hi)
    · rw [hf]; rfl
    · cases flag0 with
      | true => rfl
      | false => simp [LKL_init, hl]
    · cases flag0 with
      | true => rfl
      | false =>
        cases hl : lib.loadOk with
        | false => simp [LKL_init, hl]
        | true =>
          rcases LKL_init_missing_shape lib r0 cmd hops hl hs with ⟨t, _, heq⟩
          rw [heq]
    · cases flag0 with
      | true => rfl
      | false =>
        cases hl : lib.loadOk with
        | false => simp [LKL_init, hl]
        | true =>
          by_cases hsym : allSymbolsPresent lib = true
          · rw [LKL_init_bound_shape lib r0 cmd hops hl hsym, if_pos hi]
          · rcases LKL_init_missing_shape lib r0 cmd hops hl
                (by simpa using hsym) with ⟨t, _, heq⟩
            rw [heq]
  · intro obj hobj
    simp [LKL_del, hobj]
  · intro obj hobj
    refine ⟨?_, ?_, ?_⟩
    · rintro (hr | hh)
      · simp [LKL_del, hobj, hr, List.count_cons]
      · by_cases hr : lib.isRunningRet = 0
        · simp [LKL_del, hobj, hr, List.count_cons]
        · simp [LKL_del, hobj, hr, chkLklCfuncRet, not_lt.mpr hh,
            List.count_cons]
    · intro hr hh
      simp [LKL_del, hobj, hr, chkLklCfuncRet, hh]
    · by_cases hr : lib.isRunningRet = 0
      · simp [LKL_del, hobj, hr, List.count_cons]
      · by_cases hh : lib.sysHaltRet < 0
        · simp [LKL_del, hobj, hr, chkLklCfuncRet, hh, List.count_cons]
        · simp [LKL_del, hobj, hr, chkLklCfuncRet, hh, List.count_cons]

/-- Witness for C9 amended: the no-op and the exactly-once cleanup at
concrete stubs. -/
theorem claim_C9_amended_witness :
    LKL_del initFailLib true ⟨false⟩ = ⟨[], none, true⟩ ∧
    ((LKL_del stubLib true ⟨true⟩).events.count
      (Event.call NativeCall.callCleanup)) = 1 :=
  ⟨(claim_C9_amended initFailLib false sampleRecord [] none true).2.1
      ⟨false⟩ rfl,
   (((claim_C9_amended stubLib false sampleRecord [] none true).2.2
      ⟨true⟩ rfl).1 (Or.inr (by decide)))⟩

/-- C10: once a construction attempt gets past the library load, the
process-wide flag is set for good: it stays set even when later steps of
that construction fail and across teardown of the instance, and every
construction attempt that starts with the flag set fails at the
singleton check with an empty trace. -/
theorem claim_C10 (lib1 lib2 : NativeLib) (r0 r1 : CLklHostOperations)
    (cmd1 cmd2 : List UInt8) (h1 h2 : Option LklHostOperations)
    (hload : lib1.loadOk = true) :
    (LKL_init lib1 false r0 cmd1 h1).flag = true ∧
    (LKL_del lib1 (LKL_init lib1 false r0 cmd1 h1).flag
        (LKL_init lib1 false r0 cmd1 h1).obj).flag = true ∧
    (LKL_init lib2 true r1 cmd2 h2).error = some PyError.singletonViolation ∧
    (LKL_init lib2 true r1 cmd2 h2).events = [] := by
  have hflag := LKL_init_flag_true lib1 r0 cmd1 h1 hload
  refine ⟨hflag, ?_, rfl, rfl⟩
  rw [LKL_del_flag, hflag]

/-- Witness for C10 at a stub whose init fails after a successful load:
the flag is set regardless and a fresh construction is refused. -/
theorem claim_C10_witness :
    (LKL_init initFailLib false sampleRecord [] none).flag = true ∧
    (LKL_init stubLib true sampleRecord [] none).error =
      some PyError.singletonViolation :=
  ⟨(claim_C10 initFailLib stubLib sampleRecord sampleRecord [] [] none none
      rfl).1,
   (claim_C10 initFailLib stubLib sampleRecord sampleRecord [] [] none none
      rfl).2.2.1⟩

end LklBinding
